import Mathlib

/-!
Shallow embedding of the voice-isolation service
(src/modal/voice_isolation.py).

Samples are modelled as rationals; an audio buffer is a channel-major
list of sample lists together with a sample rate.  The external
libraries (the base64/audio decoder, the resampler, the pretrained
separation model, and the WAV/base64 encoder) are black boxes in the
source, so they appear here as abstract components of a `Pipeline`
record; fallible stages return `Except String`, mirroring Python
exceptions carrying a message.
-/

namespace VoiceIsolation

/-- The model's expected sample rate, 44100 Hz. -/
def targetRate : ℕ := 44100

/-- A multichannel audio buffer: channel-major sample matrix plus a
sample rate, mirroring the `(waveform, sample_rate)` pair returned by
`torchaudio.load`. -/
structure AudioBuffer where
  data : List (List ℚ)
  sampleRate : ℕ
deriving Repr, DecidableEq

/-- One separated stem: a channel-major sample matrix. -/
abbrev Stem := List (List ℚ)

/-- Elementwise sum of two stems, as in `sources[0] + sources[1]`. -/
def addStem (a b : Stem) : Stem :=
  List.zipWith (fun x y => List.zipWith (fun p q => p + q) x y) a b

/-- The sample of stem `s` at channel `c`, position `i` (0 outside the
stem, matching a tensor read that never happens out of bounds). -/
def stemEntry (s : Stem) (c i : ℕ) : ℚ :=
  (s.getD c []).getD i 0

/-- `shape[1]` of a channel-major matrix: the sample count of the first
channel (all channels of a tensor have the same length). -/
def numSamples (s : Stem) : ℕ :=
  (s.headD []).length

/-- Two stems have the same shape: equal channel counts and equal
per-channel sample counts (always true of slices of one tensor). -/
def sameShape (a b : Stem) : Prop :=
  a.map List.length = b.map List.length

instance (a b : Stem) : Decidable (sameShape a b) := by
  unfold sameShape; infer_instance

/-- The resampling step of `isolate_voice`: if the rate is not 44100,
apply the (abstract, per-channel) resampler to every channel and set the
rate to 44100; otherwise leave the buffer untouched. -/
def resampleStep (res : List ℚ → List ℚ) (b : AudioBuffer) : AudioBuffer :=
  if b.sampleRate ≠ targetRate then ⟨b.data.map res, targetRate⟩ else b

/-- The channel-coercion step of `isolate_voice`: duplicate a mono
buffer (`waveform.repeat(2, 1)`), truncate to the first two channels if
there are more than two (`waveform[:2]`), otherwise leave unchanged. -/
def channelCoerce (b : AudioBuffer) : AudioBuffer :=
  if b.data.length = 1 then ⟨b.data ++ b.data, b.sampleRate⟩
  else if 2 < b.data.length then ⟨b.data.take 2, b.sampleRate⟩
  else b

/-- The whole normalization: resample, then coerce channels, in the
order of the source. -/
def normalize (res : List ℚ → List ℚ) (b : AudioBuffer) : AudioBuffer :=
  channelCoerce (resampleStep res b)

/-- The dict returned by `VoiceIsolator.isolate_voice`. -/
structure IsolationResult where
  vocals_base64 : String
  accompaniment_base64 : String
  sample_rate : ℕ
  duration_seconds : ℚ
deriving Repr, DecidableEq

/-- The external collaborators of the pipeline, kept abstract:
`decode` is base64-decode plus `torchaudio.load`; `res` is the
per-channel action of `torchaudio.transforms.Resample`; `applyModel`
runs the pretrained model, returning the four stems in the fixed order
drums, bass, other, vocals; `encode` is `sf.write` to WAV plus base64.
Fallible stages return `Except String` (a Python exception and its
message). -/
structure Pipeline where
  decode : String → Except String AudioBuffer
  res : List ℚ → List ℚ
  applyModel : AudioBuffer → Except String (Fin 4 → Stem)
  encode : Stem → ℕ → Except String String

/-- `VoiceIsolator.isolate_voice`: decode, normalize, run the model,
take stem 3 as vocals and the sum of stems 0, 1, 2 as accompaniment,
encode both, and return them with the rate and the derived duration
`vocals.shape[1] / sample_rate`. -/
def isolate_voice (p : Pipeline) (audio_base64 : String) :
    Except String IsolationResult :=
  match p.decode audio_base64 with
  | Except.error e => Except.error e
  | Except.ok buf =>
    let w := normalize p.res buf
    match p.applyModel w with
    | Except.error e => Except.error e
    | Except.ok sources =>
      let vocals := sources 3
      let accompaniment :=
        addStem (addStem (sources 0) (sources 1)) (sources 2)
      match p.encode vocals w.sampleRate with
      | Except.error e => Except.error e
      | Except.ok v =>
        match p.encode accompaniment w.sampleRate with
        | Except.error e => Except.error e
        | Except.ok a =>
          Except.ok
            { vocals_base64 := v, accompaniment_base64 := a,
              sample_rate := w.sampleRate,
              duration_seconds :=
                (numSamples vocals : ℚ) / (w.sampleRate : ℚ) }

/-- The request body of the endpoint.  `none` models an absent key;
`request.get` supplies the defaults. -/
structure Request where
  audio_base64 : Option String
  return_accompaniment : Option Bool
deriving Repr, DecidableEq

/-- The response body of the endpoint; `none` models an absent key. -/
structure Response where
  success : Bool
  error : Option String
  vocals_base64 : Option String
  accompaniment_base64 : Option String
  duration_seconds : Option ℚ
deriving Repr, DecidableEq

/-- The uniform failure body `{"success": False, "error": e}`. -/
def errorResponse (e : String) : Response :=
  { success := false, error := some e, vocals_base64 := none,
    accompaniment_base64 := none, duration_seconds := none }

/-- `isolate_voice_endpoint`: read the fields with `request.get`,
reject a missing or falsy `audio_base64` (Python truthiness: `None` and
`""` are falsy), run the pipeline, build the success body, attach the
accompaniment only when requested, and convert any pipeline exception
into the uniform failure body. -/
def isolate_voice_endpoint (p : Pipeline) (request : Request) : Response :=
  let return_accompaniment := request.return_accompaniment.getD false
  match request.audio_base64 with
  | none => errorResponse "audio_base64 is required"
  | some s =>
    if s = "" then errorResponse "audio_base64 is required"
    else
      match isolate_voice p s with
      | Except.error e => errorResponse e
      | Except.ok result =>
        { success := true
          error := none
          vocals_base64 := some result.vocals_base64
          accompaniment_base64 :=
            if return_accompaniment then some result.accompaniment_base64
            else none
          duration_seconds := some result.duration_seconds }

/- Helper lemmas shared by several claims. -/

theorem resampleStep_sampleRate (res : List ℚ → List ℚ) (b : AudioBuffer) :
    (resampleStep res b).sampleRate = targetRate := by
  unfold resampleStep
  split_ifs with h
  · rfl
  · exact not_ne_iff.mp h

theorem resampleStep_length (res : List ℚ → List ℚ) (b : AudioBuffer) :
    (resampleStep res b).data.length = b.data.length := by
  unfold resampleStep
  split_ifs <;> simp

theorem channelCoerce_sampleRate (b : AudioBuffer) :
    (channelCoerce b).sampleRate = b.sampleRate := by
  unfold channelCoerce
  split_ifs <;> rfl

/-- Claim C1: for every input buffer with at least one channel and any
sample rate, normalization yields exactly 2 channels at 44100 Hz (the
buffer handed to inference). -/
theorem normalize_two_channels_target_rate
    (res : List ℚ → List ℚ) (b : AudioBuffer) (h : 1 ≤ b.data.length) :
    (normalize res b).data.length = 2 ∧
      (normalize res b).sampleRate = targetRate := by
  have hlen := resampleStep_length res b
  have hrate := resampleStep_sampleRate res b
  constructor
  · unfold normalize channelCoerce
    split_ifs with h1 h2
    · simp [h1]
    · simp only [List.length_take]
      omega
    · omega
  · unfold normalize
    rw [channelCoerce_sampleRate, hrate]

/-- Witness for C1 at a concrete mono 22050 Hz buffer. -/
theorem normalize_two_channels_target_rate_witness :
    (normalize (fun l => l) ⟨[[1, 2, 3]], 22050⟩).data.length = 2 ∧
      (normalize (fun l => l) ⟨[[1, 2, 3]], 22050⟩).sampleRate = targetRate :=
  normalize_two_channels_target_rate (fun l => l) ⟨[[1, 2, 3]], 22050⟩
    (by decide)

/-- Claim C9: when the input rate is already 44100 Hz, the resampling
step leaves the buffer unchanged. -/
theorem resample_skip_at_target
    (res : List ℚ → List ℚ) (b : AudioBuffer) (h : b.sampleRate = targetRate) :
    resampleStep res b = b := by
  unfold resampleStep
  rw [if_neg (not_ne_iff.mpr h)]

/-- Witness for C9 at a concrete 44100 Hz buffer. -/
theorem resample_skip_at_target_witness :
    resampleStep (fun _ => []) ⟨[[5, 7]], 44100⟩ = ⟨[[5, 7]], 44100⟩ :=
  resample_skip_at_target (fun _ => []) ⟨[[5, 7]], 44100⟩ (by decide)

/-- Claim C7: with more than two input channels, normalization keeps
exactly the first two post-resample channels and discards the rest. -/
theorem normalize_truncates
    (res : List ℚ → List ℚ) (b : AudioBuffer) (h : 2 < b.data.length) :
    (normalize res b).data = (resampleStep res b).data.take 2 ∧
      (normalize res b).data.length = 2 ∧
      (normalize res b).data.get? 0 = (resampleStep res b).data.get? 0 ∧
      (normalize res b).data.get? 1 = (resampleStep res b).data.get? 1 := by
  have hlen := resampleStep_length res b
  have htake : (normalize res b).data = (resampleStep res b).data.take 2 := by
    unfold normalize channelCoerce
    split_ifs with h1 h2
    · omega
    · rfl
    · omega
  refine ⟨htake, ?_, ?_, ?_⟩
  · rw [htake]
    simp only [List.length_take]
    omega
  · rw [htake]
    exact List.get?_take (by omega)
  · rw [htake]
    exact List.get?_take (by omega)

/-- Witness for C7 at a concrete 3-channel buffer. -/
theorem normalize_truncates_witness :
    (normalize (fun l => l) ⟨[[1], [2], [3]], 44100⟩).data =
        (resampleStep (fun l => l) ⟨[[1], [2], [3]], 44100⟩).data.take 2 ∧
      (normalize (fun l => l) ⟨[[1], [2], [3]], 44100⟩).data.length = 2 ∧
      (normalize (fun l => l) ⟨[[1], [2], [3]], 44100⟩).data.get? 0 =
        (resampleStep (fun l => l) ⟨[[1], [2], [3]], 44100⟩).data.get? 0 ∧
      (normalize (fun l => l) ⟨[[1], [2], [3]], 44100⟩).data.get? 1 =
        (resampleStep (fun l => l) ⟨[[1], [2], [3]], 44100⟩).data.get? 1 :=
  normalize_truncates (fun l => l) ⟨[[1], [2], [3]], 44100⟩ (by decide)

/-- Claim C8: a mono input is duplicated, so both output channels equal
the (possibly resampled) single input channel. -/
theorem normalize_mono_duplicates
    (res : List ℚ → List ℚ) (b : AudioBuffer) (h : b.data.length = 1) :
    (normalize res b).data =
      [(resampleStep res b).data.headD [],
        (resampleStep res b).data.headD []] := by
  have hlen := resampleStep_length res b
  obtain ⟨c, hc⟩ := List.length_eq_one.mp (hlen.trans h)
  unfold normalize channelCoerce
  rw [if_pos (by rw [hc]; rfl)]
  simp [hc]

/-- Witness for C8 at a concrete mono buffer needing resampling. -/
theorem normalize_mono_duplicates_witness :
    (normalize (fun l => l ++ l) ⟨[[4]], 8000⟩).data =
      [(resampleStep (fun l => l ++ l) ⟨[[4]], 8000⟩).data.headD [],
        (resampleStep (fun l => l ++ l) ⟨[[4]], 8000⟩).data.headD []] :=
  normalize_mono_duplicates (fun l => l ++ l) ⟨[[4]], 8000⟩ (by decide)

/-- Claim C4: an absent `audio_base64` key yields exactly the body
`{"success": False, "error": "audio_base64 is required"}`. -/
theorem endpoint_missing_audio (p : Pipeline) (ra : Option Bool) :
    isolate_voice_endpoint p ⟨none, ra⟩ =
      errorResponse "audio_base64 is required" := by
  rfl

/-- Claim C10: a present-but-empty (falsy) `audio_base64` is treated
exactly like an absent key: same required-field failure, and the
response does not depend on the pipeline, so no decode is attempted. -/
theorem endpoint_empty_audio (p q : Pipeline) (ra : Option Bool) :
    isolate_voice_endpoint p ⟨some "", ra⟩ =
        errorResponse "audio_base64 is required" ∧
      isolate_voice_endpoint p ⟨some "", ra⟩ =
        isolate_voice_endpoint q ⟨none, ra⟩ := by
  constructor <;> rfl

/- Elementwise characterization of stem addition. -/

theorem zipWith_add_getD (x y : List ℚ) (h : x.length = y.length) (i : ℕ) :
    (List.zipWith (fun p q => p + q) x y).getD i 0 =
      x.getD i 0 + y.getD i 0 := by
  induction x generalizing y i with
  | nil =>
    cases y with
    | nil => simp
    | cons yh yt => simp at h
  | cons xh xt ih =>
    cases y with
    | nil => simp at h
    | cons yh yt =>
      cases i with
      | zero => simp
      | succ n =>
        simp only [List.zipWith_cons_cons, List.getD_cons_succ]
        exact ih yt (by simpa using h) n

theorem addStem_entry (a b : Stem) (h : sameShape a b) (c i : ℕ) :
    stemEntry (addStem a b) c i = stemEntry a c i + stemEntry b c i := by
  induction a generalizing b c with
  | nil =>
    cases b with
    | nil => simp [addStem, stemEntry]
    | cons bh bt => simp [sameShape] at h
  | cons ah ta ih =>
    cases b with
    | nil => simp [sameShape] at h
    | cons bh bt =>
      simp only [sameShape, List.map_cons, List.cons.injEq] at h
      cases c with
      | zero =>
        simp only [addStem, List.zipWith_cons_cons, stemEntry,
          List.getD_cons_zero]
        exact zipWith_add_getD ah bh h.1 i
      | succ n =>
        simp only [addStem, List.zipWith_cons_cons, stemEntry,
          List.getD_cons_succ]
        exact ih bt h.2 n

theorem addStem_shape (a b : Stem) (h : sameShape a b) :
    (addStem a b).map List.length = a.map List.length := by
  induction a generalizing b with
  | nil => simp [addStem]
  | cons ah ta ih =>
    cases b with
    | nil => simp [sameShape] at h
    | cons bh bt =>
      simp only [sameShape, List.map_cons, List.cons.injEq] at h
      simp only [addStem, List.zipWith_cons_cons, List.map_cons,
        List.length_zipWith, h.1, min_self, List.cons.injEq]
      exact ⟨trivial, ih bt h.2⟩

/-- Claim C2: `isolate_voice` returns as vocals the encoding of the
stem at the fixed vocals index 3, and as accompaniment the encoding of
the sum of stems 0, 1 and 2, which is an elementwise sum. -/
theorem isolate_voice_mixdown (p : Pipeline) (s : String)
    (buf : AudioBuffer) (sources : Fin 4 → Stem) (v a : String)
    (hdec : p.decode s = Except.ok buf)
    (hmod : p.applyModel (normalize p.res buf) = Except.ok sources)
    (h01 : sameShape (sources 0) (sources 1))
    (h02 : sameShape (sources 0) (sources 2))
    (hv : p.encode (sources 3) (normalize p.res buf).sampleRate =
      Except.ok v)
    (ha : p.encode (addStem (addStem (sources 0) (sources 1)) (sources 2))
        (normalize p.res buf).sampleRate = Except.ok a) :
    (∃ r, isolate_voice p s = Except.ok r ∧
        r.vocals_base64 = v ∧ r.accompaniment_base64 = a) ∧
      ∀ c i,
        stemEntry (addStem (addStem (sources 0) (sources 1)) (sources 2))
            c i =
          stemEntry (sources 0) c i + stemEntry (sources 1) c i +
            stemEntry (sources 2) c i := by
  constructor
  · have hr : isolate_voice p s = Except.ok
        { vocals_base64 := v, accompaniment_base64 := a,
          sample_rate := (normalize p.res buf).sampleRate,
          duration_seconds := (numSamples (sources 3) : ℚ) /
            ((normalize p.res buf).sampleRate : ℚ) } := by
      simp only [isolate_voice, hdec, hmod, hv, ha]
    exact ⟨_, hr, rfl, rfl⟩
  · intro c i
    have hshape : sameShape (addStem (sources 0) (sources 1)) (sources 2) :=
      (addStem_shape (sources 0) (sources 1) h01).trans h02
    rw [addStem_entry _ _ hshape, addStem_entry _ _ h01]

/-- Concrete stems used by witnesses: four 2-channel, 2-sample stems. -/
def demoStems : Fin 4 → Stem := fun j => [[(j : ℚ), 1], [2, 3]]

/-- A concrete fully-successful pipeline used by witnesses. -/
def demoPipeline : Pipeline :=
  { decode := fun _ => Except.ok ⟨[[1, 2]], 44100⟩
    res := fun l => l
    applyModel := fun _ => Except.ok demoStems
    encode := fun _ _ => Except.ok "E" }

/-- Witness for C2 on the concrete pipeline. -/
theorem isolate_voice_mixdown_witness :
    (∃ r, isolate_voice demoPipeline "x" = Except.ok r ∧
        r.vocals_base64 = "E" ∧ r.accompaniment_base64 = "E") ∧
      ∀ c i,
        stemEntry
            (addStem (addStem (demoStems 0) (demoStems 1)) (demoStems 2))
            c i =
          stemEntry (demoStems 0) c i + stemEntry (demoStems 1) c i +
            stemEntry (demoStems 2) c i :=
  isolate_voice_mixdown demoPipeline "x" ⟨[[1, 2]], 44100⟩ demoStems
    "E" "E" rfl rfl (by decide) (by decide) rfl rfl

/-- Claim C3: on every successful run, `duration_seconds` equals the
vocals stem's sample count divided by the sample rate. -/
theorem isolate_voice_duration (p : Pipeline) (s : String)
    (buf : AudioBuffer) (sources : Fin 4 → Stem) (r : IsolationResult)
    (hdec : p.decode s = Except.ok buf)
    (hmod : p.applyModel (normalize p.res buf) = Except.ok sources)
    (h : isolate_voice p s = Except.ok r) :
    r.duration_seconds = (numSamples (sources 3) : ℚ) / (r.sample_rate : ℚ) := by
  simp only [isolate_voice, hdec, hmod] at h
  cases hv : p.encode (sources 3) (normalize p.res buf).sampleRate with
  | error e => rw [hv] at h; exact absurd h (by simp)
  | ok v =>
    rw [hv] at h
    cases ha : p.encode
        (addStem (addStem (sources 0) (sources 1)) (sources 2))
        (normalize p.res buf).sampleRate with
    | error e => rw [ha] at h; exact absurd h (by simp)
    | ok a =>
      rw [ha] at h
      cases h
      rfl

/-- The result of the concrete pipeline on any non-falsy input. -/
def demoResult : IsolationResult :=
  { vocals_base64 := "E", accompaniment_base64 := "E",
    sample_rate := 44100,
    duration_seconds := (2 : ℚ) / (44100 : ℚ) }

/-- Witness for C3 on the concrete pipeline. -/
theorem isolate_voice_duration_witness :
    demoResult.duration_seconds =
      (numSamples (demoStems 3) : ℚ) / (demoResult.sample_rate : ℚ) :=
  isolate_voice_duration demoPipeline "y" ⟨[[1, 2]], 44100⟩ demoStems
    demoResult rfl rfl rfl

/-- Claim C5: the endpoint never propagates an exception: every
response either succeeds or is the uniform failure body, and a pipeline
exception with message `e` becomes exactly `errorResponse e`. -/
theorem endpoint_catches_errors (p : Pipeline) (req : Request) :
    ((isolate_voice_endpoint p req).success = true ∨
        ∃ e, isolate_voice_endpoint p req = errorResponse e) ∧
      ∀ s e, req.audio_base64 = some s → s ≠ "" →
        isolate_voice p s = Except.error e →
        isolate_voice_endpoint p req = errorResponse e := by
  constructor
  · rcases req with ⟨audio, ra⟩
    cases audio with
    | none => exact Or.inr ⟨_, rfl⟩
    | some s =>
      by_cases hs : s = ""
      · subst hs
        exact Or.inr ⟨_, rfl⟩
      · cases hrun : isolate_voice p s with
        | error e =>
          refine Or.inr ⟨e, ?_⟩
          simp only [isolate_voice_endpoint, if_neg hs, hrun]
        | ok result =>
          refine Or.inl ?_
          simp only [isolate_voice_endpoint, if_neg hs, hrun]
  · intro s e hsome hs hrun
    rcases req with ⟨audio, ra⟩
    cases hsome
    simp only [isolate_voice_endpoint, if_neg hs, hrun]

/-- A concrete pipeline whose decode stage raises. -/
def failPipeline : Pipeline :=
  { decode := fun _ => Except.error "boom"
    res := fun l => l
    applyModel := fun _ => Except.error "m"
    encode := fun _ _ => Except.error "e" }

/-- Witness for C5: the decode exception surfaces as the uniform
failure body. -/
theorem endpoint_catches_errors_witness :
    isolate_voice_endpoint failPipeline ⟨some "x", none⟩ =
      errorResponse "boom" :=
  (endpoint_catches_errors failPipeline ⟨some "x", none⟩).2 "x" "boom"
    rfl (by decide) rfl

/-- Claim C6: the response carries `accompaniment_base64` iff the
request set `return_accompaniment` (default false) and the run
succeeded. -/
theorem endpoint_accompaniment_iff (p : Pipeline) (req : Request) :
    (isolate_voice_endpoint p req).accompaniment_base64.isSome = true ↔
      (req.return_accompaniment.getD false = true ∧
        (isolate_voice_endpoint p req).success = true) := by
  rcases req with ⟨audio, ra⟩
  cases audio with
  | none => simp [isolate_voice_endpoint, errorResponse]
  | some s =>
    by_cases hs : s = ""
    · subst hs
      simp [isolate_voice_endpoint, errorResponse]
    · cases hrun : isolate_voice p s with
      | error e =>
        simp [isolate_voice_endpoint, if_neg hs, hrun, errorResponse]
      | ok result =>
        by_cases hra : ra.getD false = true
        · simp [isolate_voice_endpoint, if_neg hs, hrun, hra]
        · simp [isolate_voice_endpoint, if_neg hs, hrun, hra]

end VoiceIsolation
